import Mathlib

/-!
Shallow embedding of the molecular-viewer application
(`src/app/composables/useMoleculeViewer.ts`, `src/app/constants/molecules.ts`,
`src/app/types/molecule.ts`).

The external 3Dmol.js rendering surface is modelled as an oracle: every call
made into it is recorded as a `RenderCall`, and the atoms it reports after a
load (parsing inline data or completing a remote download) are supplied as an
explicit argument of the corresponding operation.  Reactive refs become fields
of an explicit `ViewerState` record; each composable function becomes a Lean
function from state (plus arguments) to the new state together with the list
of rendering-surface calls it issues.  JavaScript numbers are modelled as real
numbers.  The viewer instance is assumed present (the session is `Ready`);
all modelled operations early-return unchanged otherwise in the source.
-/

namespace MolViz

/-- Atom data delivered by the rendering surface's click callback / atom list
(`AtomInfo` in `src/app/types/molecule.ts`). Optional PDB fields that the
composable never reads for logic (resn, resi, chain, serial) are kept as
options for fidelity. -/
structure AtomInfo where
  x : ℝ
  y : ℝ
  z : ℝ
  elem : String
  resn : Option String := none
  resi : Option Int := none
  chain : Option String := none
  serial : Option Int := none

/-- Molecule metadata (`MoleculeData` in `src/app/types/molecule.ts`). -/
structure MoleculeData where
  id : String
  name : String
  pdbId : String
  formula : String
  weight : ℚ
  description : String

/-- Background option (`Background` in `src/app/types/molecule.ts`). -/
structure Background where
  id : String
  name : String
  color : String

/-- The preset molecule catalog (`MOLECULES` in `src/app/constants/molecules.ts`). -/
def MOLECULES : List MoleculeData :=
  [ { id := "caffeine", name := "Caffeine", pdbId := "1UAO",
      formula := "C₈H₁₀N₄O₂", weight := 19419/100,
      description := "Stimulant found in coffee and tea" },
    { id := "aspirin", name := "Aspirin", pdbId := "2OYE",
      formula := "C₉H₈O₄", weight := 18016/100,
      description := "Anti-inflammatory and pain reliever" },
    { id := "glucose", name := "Glucose", pdbId := "3W7B",
      formula := "C₆H₁₂O₆", weight := 18016/100,
      description := "Primary energy source for cells" },
    { id := "ethanol", name := "Ethanol", pdbId := "INLINE",
      formula := "C₂H₆O", weight := 4607/100,
      description := "Alcohol found in beverages" } ]

/-- Atom counts for each molecule by PDB ID (`ATOM_COUNTS`). -/
def ATOM_COUNTS : List (String × Nat) :=
  [("1UAO", 24), ("2OYE", 21), ("3W7B", 24), ("INLINE", 9)]

/-- Background options (`BACKGROUNDS`). -/
def BACKGROUNDS : List Background :=
  [ { id := "white", name := "White", color := "white" },
    { id := "black", name := "Black", color := "black" },
    { id := "gray", name := "Gray", color := "#1a1a2e" } ]

/-- Inline PDB data for the ethanol molecule (`ETHANOL_PDB`). -/
def ETHANOL_PDB : String :=
  "COMPND    ETHANOL\nAUTHOR    GENERATED FOR MOLECULAR VISUALIZER\nATOM      1  C1  ETH A   1      -0.757   0.429   0.000  1.00  0.00           C\nATOM      2  C2  ETH A   1       0.757  -0.429   0.000  1.00  0.00           C\nATOM      3  O   ETH A   1       1.584   0.720   0.000  1.00  0.00           O\nATOM      4  H1  ETH A   1      -1.164   0.437   1.014  1.00  0.00           H\nATOM      5  H2  ETH A   1      -0.537   1.450  -0.333  1.00  0.00           H\nATOM      6  H3  ETH A   1      -1.497   0.003  -0.681  1.00  0.00           H\nATOM      7  H4  ETH A   1       0.537  -1.450   0.333  1.00  0.00           H\nATOM      8  H5  ETH A   1       1.164  -0.437  -1.014  1.00  0.00           H\nATOM      9  H6  ETH A   1       2.484   0.400   0.000  1.00  0.00           H\nEND"

/-- Number of ATOM records in a PDB text: lines beginning with "ATOM". -/
def countAtomRecords (s : String) : Nat :=
  ((s.data.splitOn (Char.ofNat 10)).filter
    (fun line => List.isPrefixOf ['A', 'T', 'O', 'M'] line)).length

/-- Default viewer configuration (`VIEWER_CONFIG`); only the fields the
modelled logic reads. -/
structure ViewerConfig where
  backgroundColor : String
  defaultMolecule : String
  defaultStyle : String
  defaultColorScheme : String
  defaultBackground : String

/-- The `VIEWER_CONFIG` constant. -/
def VIEWER_CONFIG : ViewerConfig :=
  { backgroundColor := "white", defaultMolecule := "caffeine",
    defaultStyle := "stick", defaultColorScheme := "Jmol",
    defaultBackground := "white" }

/-- Helper `getMoleculeById`: find a molecule by internal id. -/
def getMoleculeById (id : String) : Option MoleculeData :=
  MOLECULES.find? (fun m => m.id == id)

/-- Helper `getBackgroundById`: find a background by id. -/
def getBackgroundById (id : String) : Option Background :=
  BACKGROUNDS.find? (fun b => b.id == id)

/-- Helper `getAtomCount`: look up `ATOM_COUNTS[pdbId] || 0`. -/
def getAtomCount (pdbId : String) : Nat :=
  match ATOM_COUNTS.find? (fun p => p.1 == pdbId) with
  | some p => p.2
  | none => 0

/-- Euclidean distance between two atoms (`calculateDistance`):
d = sqrt(dx*dx + dy*dy + dz*dz). -/
noncomputable def calculateDistance (a b : AtomInfo) : ℝ :=
  Real.sqrt ((b.x - a.x) * (b.x - a.x) + (b.y - a.y) * (b.y - a.y) +
    (b.z - a.z) * (b.z - a.z))

/-- Colorscheme value produced by `buildColorStyle`: the scheme map lookup
with fallback to "Jmol" (`schemeMap[schemeId] || 'Jmol'`). -/
def buildColorStyle (schemeId : String) : String :=
  if schemeId == "Jmol" then "Jmol"
  else if schemeId == "carbon" then "greenCarbon"
  else if schemeId == "spectrum" then "spectrum"
  else if schemeId == "chain" then "chain"
  else "Jmol"

/-- One call into the external rendering surface (3Dmol.js viewer /
`$3Dmol.download`).  Arguments record the data the composable passes. -/
inductive RenderCall where
  | clear
  | removeAllLabels
  | removeAllShapes
  | addModel (data : String) (format : String)
  | download (query : String)
  | setStyleCall (styleKey : String) (colorscheme : String)
  | setBackgroundColor (color : String)
  | addLabel (text : String) (x y z : ℝ)
  | addCylinder (x1 y1 z1 x2 y2 z2 : ℝ)
  | setClickable
  | zoomTo
  | zoom
  | render
  | spin

/-- Whether a rendering call is a remote download request. -/
def RenderCall.isDownload : RenderCall → Bool
  | RenderCall.download _ => true
  | _ => false

/-- Whether a rendering call is an addLabel request. -/
def RenderCall.isAddLabel : RenderCall → Bool
  | RenderCall.addLabel _ _ _ _ => true
  | _ => false

/-- The reactive state of `useMoleculeViewer` plus a model of the atoms
currently held by the rendering surface (`viewer.selectedAtoms({})`). -/
structure ViewerState where
  isLoading : Bool
  currentMolecule : String
  currentStyle : String
  currentColorScheme : String
  currentBackground : String
  isSpinning : Bool
  showLabels : Bool
  measureMode : Bool
  selectedAtom : Option AtomInfo
  measureAtom1 : Option AtomInfo
  measurementDistance : Option ℝ
  atomCount : Nat
  searchError : Option String
  customPdbId : Option String
  viewerAtoms : List AtomInfo

/-- The state at composable creation: all refs at their initial values. -/
def initState : ViewerState :=
  { isLoading := false
    currentMolecule := VIEWER_CONFIG.defaultMolecule
    currentStyle := VIEWER_CONFIG.defaultStyle
    currentColorScheme := VIEWER_CONFIG.defaultColorScheme
    currentBackground := VIEWER_CONFIG.defaultBackground
    isSpinning := false
    showLabels := false
    measureMode := false
    selectedAtom := none
    measureAtom1 := none
    measurementDistance := none
    atomCount := 0
    searchError := none
    customPdbId := none
    viewerAtoms := [] }

/-- Rendering calls issued by `applyVisualizationSettings`: set the style
object `{ [currentStyle]: buildColorStyle(currentColorScheme) }` and render. -/
def applyVisualizationSettings (s : ViewerState) : List RenderCall :=
  [RenderCall.setStyleCall s.currentStyle (buildColorStyle s.currentColorScheme),
   RenderCall.render]

/-- Rendering calls issued by `addLabels`: filter out hydrogens, limit to 50
labels, request one label per remaining atom, then render. -/
def addLabelsCalls (s : ViewerState) : List RenderCall :=
  let heavyAtoms := (s.viewerAtoms.filter (fun a => a.elem != "H")).take 50
  heavyAtoms.map (fun a => RenderCall.addLabel a.elem a.x a.y a.z) ++
    [RenderCall.render]

/-- `removeLabels`: remove all labels and render. -/
def removeLabelsCalls : List RenderCall :=
  [RenderCall.removeAllLabels, RenderCall.render]

/-- `setStyle(styleId)`: store the id and re-apply visualization settings. -/
def setStyle (s : ViewerState) (styleId : String) :
    ViewerState × List RenderCall :=
  let s1 := { s with currentStyle := styleId }
  (s1, applyVisualizationSettings s1)

/-- `setColorScheme(schemeId)`: store the id and re-apply visualization
settings. -/
def setColorScheme (s : ViewerState) (schemeId : String) :
    ViewerState × List RenderCall :=
  let s1 := { s with currentColorScheme := schemeId }
  (s1, applyVisualizationSettings s1)

/-- `setBackground(bgId)`: store the id; only when the id is found in
`BACKGROUNDS` does it set the surface background color and render. -/
def setBackground (s : ViewerState) (bgId : String) :
    ViewerState × List RenderCall :=
  let s1 := { s with currentBackground := bgId }
  match getBackgroundById bgId with
  | some bg => (s1, [RenderCall.setBackgroundColor bg.color, RenderCall.render])
  | none => (s1, [])

/-- `drawMeasurementLine(atom1, atom2)`: remove shapes, draw a dashed
cylinder between the atoms, render. -/
def drawMeasurementLine (atom1 atom2 : AtomInfo) : List RenderCall :=
  [RenderCall.removeAllShapes,
   RenderCall.addCylinder atom1.x atom1.y atom1.z atom2.x atom2.y atom2.z,
   RenderCall.render]

/-- `clearMeasurement()`: null the distance and the pending first atom,
remove shapes, render.  The measure-mode flag is not touched. -/
def clearMeasurement (s : ViewerState) : ViewerState × List RenderCall :=
  ({ s with measurementDistance := none, measureAtom1 := none },
   [RenderCall.removeAllShapes, RenderCall.render])

/-- `toggleMeasureMode()`: flip the flag; when turning the mode off, also
clear the pending first atom. -/
def toggleMeasureMode (s : ViewerState) : ViewerState :=
  let m := !s.measureMode
  { s with measureMode := m,
           measureAtom1 := if m then s.measureAtom1 else none }

/-- `handleMeasurementClick(atom)`: first click stores the atom (and surfaces
it as the selected atom); second click computes the distance, draws the
indicator, clears the pending atom and turns measure mode off. -/
noncomputable def handleMeasurementClick (s : ViewerState) (atom : AtomInfo) :
    ViewerState × List RenderCall :=
  match s.measureAtom1 with
  | none =>
      ({ s with measureAtom1 := some atom, selectedAtom := some atom }, [])
  | some a1 =>
      ({ s with measurementDistance := some (calculateDistance a1 atom),
                measureAtom1 := none, measureMode := false },
       drawMeasurementLine a1 atom)

/-- The click callback registered by `setupAtomClicking`: in measure mode the
click feeds the measurement machine, otherwise it selects the atom. -/
noncomputable def onAtomClick (s : ViewerState) (atom : AtomInfo) :
    ViewerState × List RenderCall :=
  if s.measureMode then handleMeasurementClick s atom
  else ({ s with selectedAtom := some atom }, [])

/-- `toggleLabels()`: flip visibility; on enable request the capped label set,
on disable request removal of all labels. -/
def toggleLabels (s : ViewerState) : ViewerState × List RenderCall :=
  let s1 := { s with showLabels := !s.showLabels }
  if s1.showLabels then (s1, addLabelsCalls s1) else (s1, removeLabelsCalls)

/-- `toggleSpin()`: flip the spin flag and forward it to the surface. -/
def toggleSpin (s : ViewerState) : ViewerState × List RenderCall :=
  ({ s with isSpinning := !s.isSpinning }, [RenderCall.spin])

/-- `resetView()`: stop spinning when active, then refit and render. -/
def resetView (s : ViewerState) : ViewerState × List RenderCall :=
  let p := if s.isSpinning then toggleSpin s else (s, [])
  (p.1, p.2 ++ [RenderCall.zoomTo, RenderCall.zoom, RenderCall.render])

/-- `clearSearchError()`: null the search error. -/
def clearSearchError (s : ViewerState) : ViewerState :=
  { s with searchError := none }

/-- `finalizeLoad(pdbId)`: apply current style settings, re-register the click
handler, record the catalog atom count, fit the camera, render, and re-apply
labels when visibility is on.  Reads the surface atoms already loaded. -/
def finalizeLoad (s : ViewerState) (pdbId : String) :
    ViewerState × List RenderCall :=
  ({ s with atomCount := getAtomCount pdbId },
   applyVisualizationSettings s ++
     [RenderCall.setClickable, RenderCall.zoomTo, RenderCall.zoom,
      RenderCall.render] ++
     (if s.showLabels then addLabelsCalls s else []))

/-- `loadInlineMolecule(pdbData, pdbId)`: hand the inline text to the surface
(`addModel`), then finalize; always ends with the loading flag cleared.
`surfaceAtoms` is the oracle for the atoms the surface parses out of the
text. -/
def loadInlineMolecule (s : ViewerState) (pdbData : String) (pdbId : String)
    (surfaceAtoms : List AtomInfo) : ViewerState × List RenderCall :=
  let s1 := { s with viewerAtoms := surfaceAtoms }
  let r := finalizeLoad s1 pdbId
  ({ r.1 with isLoading := false },
   RenderCall.addModel pdbData "pdb" :: r.2)

/-- `loadFromPDB(pdbId)`: request a remote download `pdb:<id>`, then on the
completion callback finalize and clear the loading flag.  `surfaceAtoms` is
the oracle for the atoms the download delivers. -/
def loadFromPDB (s : ViewerState) (pdbId : String)
    (surfaceAtoms : List AtomInfo) : ViewerState × List RenderCall :=
  let s1 := { s with viewerAtoms := surfaceAtoms }
  let r := finalizeLoad s1 pdbId
  ({ r.1 with isLoading := false },
   RenderCall.download ("pdb:" ++ pdbId) :: r.2)

/-- `loadMolecule(moleculeId)`: look the preset up (unknown ids are a no-op),
set the loading flag, select the preset, null the custom PDB id and search
error, wipe the surface and the selection/measurement state, then take the
inline path for "ethanol" and the remote path otherwise. -/
def loadMolecule (s : ViewerState) (moleculeId : String)
    (surfaceAtoms : List AtomInfo) : ViewerState × List RenderCall :=
  match getMoleculeById moleculeId with
  | none => (s, [])
  | some molecule =>
      let s1 := { s with isLoading := true, currentMolecule := moleculeId,
                         customPdbId := none, searchError := none,
                         selectedAtom := none, viewerAtoms := [] }
      let c := clearMeasurement s1
      let preCalls := [RenderCall.clear, RenderCall.removeAllLabels,
                       RenderCall.removeAllShapes] ++ c.2
      let r := if moleculeId == "ethanol" then
                 loadInlineMolecule c.1 ETHANOL_PDB molecule.pdbId surfaceAtoms
               else
                 loadFromPDB c.1 molecule.pdbId surfaceAtoms
      (r.1, preCalls ++ r.2)

/-- Model of JavaScript String.prototype.trim: strip leading and trailing
whitespace. -/
def jsTrim (s : String) : String :=
  String.mk
    (((s.data.dropWhile Char.isWhitespace).reverse.dropWhile
        Char.isWhitespace).reverse)

/-- Model of JavaScript String.prototype.toUpperCase on the ASCII range. -/
def jsToUpper (s : String) : String :=
  String.mk (s.data.map Char.toUpper)

/-- Whether a cleaned id matches the PDB-id regex `[A-Z0-9]{4}` with the
case-insensitive flag: exactly four ASCII alphanumeric characters. -/
def validPdbId (s : String) : Bool :=
  s.data.length == 4 && s.data.all (fun c => c.isAlpha || c.isDigit)

/-- The trim-and-uppercase normalization `pdbId.trim().toUpperCase()`. -/
def cleanPdbId (raw : String) : String :=
  jsToUpper (jsTrim raw)

/-- `searchPDB(pdbId)`: reject empty input; normalize; reject ids that are not
exactly 4 alphanumeric characters (both rejections surface an error, issue no
surface call and return false).  Otherwise set the loading flag, record the
custom id, clear the preset selection and the prior surface state, request the
download; on the completion callback fail with not-found when zero atoms were
delivered (error surfaced, custom id and loading flag reset, returns false),
else record the atom count and finalize, returning true. -/
def searchPDB (s : ViewerState) (pdbId : String)
    (surfaceAtoms : List AtomInfo) : ViewerState × List RenderCall × Bool :=
  if jsTrim pdbId == "" then
    ({ s with searchError := some "Please enter a PDB ID" }, [], false)
  else
    let cleanId := cleanPdbId pdbId
    if !validPdbId cleanId then
      ({ s with
          searchError :=
            some "PDB ID must be 4 characters (e.g., 1CRN, 4HHB)" }, [], false)
    else
      let s1 := { s with isLoading := true, searchError := none,
                         customPdbId := some cleanId, currentMolecule := "",
                         selectedAtom := none, viewerAtoms := [] }
      let c := clearMeasurement s1
      let preCalls := [RenderCall.clear, RenderCall.removeAllLabels,
                       RenderCall.removeAllShapes] ++ c.2 ++
                      [RenderCall.download ("pdb:" ++ cleanId)]
      if surfaceAtoms.length == 0 then
        ({ c.1 with
            searchError :=
              some ("PDB ID \"" ++ cleanId ++ "\" not found"),
            customPdbId := none, isLoading := false },
         preCalls, false)
      else
        let s2 := { c.1 with viewerAtoms := surfaceAtoms,
                             atomCount := surfaceAtoms.length }
        let postCalls := applyVisualizationSettings s2 ++
          [RenderCall.setClickable, RenderCall.zoomTo, RenderCall.zoom,
           RenderCall.render] ++
          (if s2.showLabels then addLabelsCalls s2 else [])
        ({ s2 with isLoading := false }, preCalls ++ postCalls, true)

/-- One user-visible operation on the viewer session.  Load and search events
carry the atom list the external surface reports for them (the oracle for the
remote database / PDB parser). -/
inductive Event where
  | toggleMeasureMode
  | clickAtom (atom : AtomInfo)
  | clearMeasurement
  | loadMolecule (id : String) (surfaceAtoms : List AtomInfo)
  | searchPDB (raw : String) (surfaceAtoms : List AtomInfo)
  | toggleLabels
  | setStyle (id : String)
  | setColorScheme (id : String)
  | setBackground (id : String)
  | toggleSpin
  | resetView
  | clearSearchError

/-- Apply one event to the state, collecting the rendering-surface calls. -/
noncomputable def step (s : ViewerState) : Event → ViewerState × List RenderCall
  | Event.toggleMeasureMode => (toggleMeasureMode s, [])
  | Event.clickAtom a => onAtomClick s a
  | Event.clearMeasurement => clearMeasurement s
  | Event.loadMolecule id atoms => loadMolecule s id atoms
  | Event.searchPDB raw atoms =>
      let r := searchPDB s raw atoms
      (r.1, r.2.1)
  | Event.toggleLabels => toggleLabels s
  | Event.setStyle id => setStyle s id
  | Event.setColorScheme id => setColorScheme s id
  | Event.setBackground id => setBackground s id
  | Event.toggleSpin => toggleSpin s
  | Event.resetView => resetView s
  | Event.clearSearchError => (clearSearchError s, [])

/-- The state after one event, discarding the calls. -/
noncomputable def stepState (s : ViewerState) (e : Event) : ViewerState :=
  (step s e).1

/-- The state after a sequence of events. -/
noncomputable def run (s : ViewerState) (evs : List Event) : ViewerState :=
  evs.foldl stepState s

/-- A state is reachable when some event sequence from the initial state
produces it. -/
def Reachable (s : ViewerState) : Prop :=
  ∃ evs : List Event, run initState evs = s

/-- A concrete carbon atom at the origin. -/
noncomputable def atomA : AtomInfo := { x := 0, y := 0, z := 0, elem := "C" }

/-- A concrete oxygen atom at (3, 4, 0). -/
noncomputable def atomB : AtomInfo := { x := 3, y := 4, z := 0, elem := "O" }

/-- A concrete nitrogen atom at (1, 1, 1). -/
noncomputable def atomC : AtomInfo := { x := 1, y := 1, z := 1, elem := "N" }

/-- The event sequence that completes one measurement and then re-arms and
clicks a first atom: toggle on, click A, click B (completion), toggle on
again, click C. -/
noncomputable def rearmEvents : List Event :=
  [Event.toggleMeasureMode, Event.clickAtom atomA, Event.clickAtom atomB,
   Event.toggleMeasureMode, Event.clickAtom atomC]

/-- The state reached by completing a measurement, re-arming and clicking a
first atom. -/
noncomputable def rearmedState : ViewerState := run initState rearmEvents

/-- The state reached by completing one measurement from the initial state
(toggle on, click A, click B). -/
noncomputable def completedState : ViewerState :=
  run initState [Event.toggleMeasureMode, Event.clickAtom atomA,
    Event.clickAtom atomB]

/-- The state after a successful custom search for "1crn" delivering one
atom. -/
noncomputable def searchedState : ViewerState :=
  run initState [Event.searchPDB "1crn" [atomA]]

/-- A state whose rendering surface holds 101 non-hydrogen atoms. -/
noncomputable def manyAtomsState : ViewerState :=
  { initState with
      viewerAtoms :=
        (List.range 101).map
          (fun n => { x := (n : ℝ), y := 0, z := 0, elem := "C" }) }

/-- The state after loading the caffeine preset (remote fetch delivering one
atom). -/
noncomputable def caffeineLoadedState : ViewerState :=
  run initState [Event.loadMolecule "caffeine" [atomA]]

/-- The state after a search for the well-formed id "9xyz" whose remote fetch
delivers zero atoms, issued while caffeine was displayed. -/
noncomputable def failedSearchState : ViewerState :=
  (searchPDB caffeineLoadedState "9xyz" []).1

/-- Every call produced by `addLabelsCalls` is an addLabel or the final
render, never a download. -/
theorem addLabelsCalls_no_download (s : ViewerState) :
    ∀ c ∈ addLabelsCalls s, c.isDownload = false := by
  intro c hc
  simp only [addLabelsCalls, List.mem_append, List.mem_map,
    List.mem_singleton] at hc
  rcases hc with ⟨a, _, rfl⟩ | rfl <;> rfl

/-- The addLabel requests of `addLabelsCalls` number at most 50. -/
theorem addLabelsCalls_le_50 (s : ViewerState) :
    (addLabelsCalls s).countP RenderCall.isAddLabel ≤ 50 := by
  simp only [addLabelsCalls, List.countP_append]
  have h1 : ((((s.viewerAtoms.filter (fun a => a.elem != "H")).take 50).map
      (fun a => RenderCall.addLabel a.elem a.x a.y a.z)).countP
      RenderCall.isAddLabel) ≤ 50 := by
    calc ((((s.viewerAtoms.filter (fun a => a.elem != "H")).take 50).map
          (fun a => RenderCall.addLabel a.elem a.x a.y a.z)).countP
          RenderCall.isAddLabel)
        ≤ (((s.viewerAtoms.filter (fun a => a.elem != "H")).take 50).map
          (fun a => RenderCall.addLabel a.elem a.x a.y a.z)).length :=
          List.countP_le_length _
      _ = ((s.viewerAtoms.filter (fun a => a.elem != "H")).take 50).length :=
          List.length_map _ _
      _ ≤ 50 := by
          rw [List.length_take]
          exact min_le_left _ _
  have h2 : ([RenderCall.render].countP RenderCall.isAddLabel) = 0 := rfl
  omega

/-- No addLabel request of `addLabelsCalls` carries the hydrogen element. -/
theorem addLabelsCalls_no_hydrogen (s : ViewerState) :
    ∀ e x y z, RenderCall.addLabel e x y z ∈ addLabelsCalls s → e ≠ "H" := by
  intro e x y z hmem
  simp only [addLabelsCalls, List.mem_append, List.mem_map,
    List.mem_singleton] at hmem
  rcases hmem with ⟨a, ha, heq⟩ | h
  · have hel : a.elem = e := by
      injection heq
    have ha' : a ∈ s.viewerAtoms.filter (fun a => a.elem != "H") :=
      List.mem_of_mem_take ha
    have := (List.mem_filter.mp ha').2
    simp only [bne_iff_ne, ne_eq] at this
    rw [← hel]
    exact this
  · cases h

/-- C4: the distance calculator is symmetric and vanishes on the diagonal. -/
theorem calculateDistance_symm_diag :
    (∀ A B : AtomInfo, calculateDistance A B = calculateDistance B A) ∧
    (∀ A : AtomInfo, calculateDistance A A = 0) := by
  constructor
  · intro A B
    unfold calculateDistance
    congr 1
    ring
  · intro A
    simp [calculateDistance]

/-- C3: clearMeasurement always nulls the distance and the pending first atom
and leaves the measure-mode flag exactly as it was. -/
theorem clearMeasurement_frame (s : ViewerState) :
    (clearMeasurement s).1.measurementDistance = none ∧
    (clearMeasurement s).1.measureAtom1 = none ∧
    (clearMeasurement s).1.measureMode = s.measureMode := by
  refine ⟨rfl, rfl, rfl⟩

/-- C2: from an Idle measurement state, arming and clicking two atoms yields
mode off, no pending first atom, and the Euclidean distance of the two
atoms; a further measurement requires re-arming. -/
theorem measurement_one_shot (s : ViewerState) (A B : AtomInfo)
    (hm : s.measureMode = false) (h1 : s.measureAtom1 = none)
    (hd : s.measurementDistance = none) :
    (run s [Event.toggleMeasureMode, Event.clickAtom A,
        Event.clickAtom B]).measureMode = false ∧
    (run s [Event.toggleMeasureMode, Event.clickAtom A,
        Event.clickAtom B]).measureAtom1 = none ∧
    (run s [Event.toggleMeasureMode, Event.clickAtom A,
        Event.clickAtom B]).measurementDistance =
      some (calculateDistance A B) := by
  simp [run, stepState, step, toggleMeasureMode, onAtomClick,
    handleMeasurementClick, hm, h1, hd, List.foldl]

/-- Witness for C2 at the initial state and two concrete atoms. -/
theorem measurement_one_shot_witness :
    completedState.measureMode = false ∧
    completedState.measureAtom1 = none ∧
    completedState.measurementDistance = some (calculateDistance atomA atomB) :=
  measurement_one_shot initState atomA atomB rfl rfl rfl

/-- C7: enabling labels issues at most 50 addLabel requests, none of them for
a hydrogen atom, whatever structure is loaded; disabling labels requests
removal of all labels. -/
theorem toggleLabels_cap (s : ViewerState) :
    (s.showLabels = false →
      (toggleLabels s).2.countP RenderCall.isAddLabel ≤ 50 ∧
      (∀ e x y z, RenderCall.addLabel e x y z ∈ (toggleLabels s).2 →
        e ≠ "H")) ∧
    (s.showLabels = true → (toggleLabels s).2 = removeLabelsCalls) := by
  constructor
  · intro h
    have ht : toggleLabels s =
        ({ s with showLabels := true },
         addLabelsCalls { s with showLabels := true }) := by
      simp [toggleLabels, h]
    rw [ht]
    exact ⟨addLabelsCalls_le_50 _, addLabelsCalls_no_hydrogen _⟩
  · intro h
    simp [toggleLabels, h]

/-- Witness for C7 at a structure of 101 non-hydrogen atoms. -/
theorem toggleLabels_cap_witness :
    manyAtomsState.viewerAtoms.length = 101 ∧
    (toggleLabels manyAtomsState).2.countP RenderCall.isAddLabel ≤ 50 ∧
    (toggleLabels { manyAtomsState with showLabels := true }).2 =
      removeLabelsCalls :=
  ⟨rfl,
   ((toggleLabels_cap manyAtomsState).1 rfl).1,
   (toggleLabels_cap { manyAtomsState with showLabels := true }).2 rfl⟩

/-- C8 counterexample: with the unknown id "bogus", setBackground mutates the
stored id to "bogus" (no documented default) and issues no rendering call at
all (no re-render), and setStyle forwards the unknown key "bogus" to the
surface instead of a default. -/
theorem setters_fallback_counterexample :
    getBackgroundById "bogus" = none ∧
    (setBackground initState "bogus").1.currentBackground = "bogus" ∧
    (setBackground initState "bogus").2 = [] ∧
    (setStyle initState "bogus").1.currentStyle = "bogus" ∧
    (setStyle initState "bogus").2 =
      [RenderCall.setStyleCall "bogus" "Jmol", RenderCall.render] :=
  ⟨rfl, rfl, rfl, rfl, rfl⟩

/-- C8 amended: unknown ids never error: setColorScheme falls back to the
"Jmol" colorscheme for ids outside the scheme table; setStyle stores and
forwards the id unchanged; setBackground with an id outside the background
table performs only the state mutation and no rendering call; all three
setters are idempotent on the state (though each call re-issues its rendering
calls). -/
theorem setters_unknown_id_amended (s : ViewerState) (id : String) :
    (id ∉ ["Jmol", "carbon", "spectrum", "chain"] →
      buildColorStyle id = "Jmol") ∧
    ((setStyle s id).1.currentStyle = id ∧
      (setStyle s id).2 =
        [RenderCall.setStyleCall id (buildColorStyle s.currentColorScheme),
         RenderCall.render]) ∧
    (getBackgroundById id = none →
      (setBackground s id).1 = { s with currentBackground := id } ∧
      (setBackground s id).2 = []) ∧
    (setStyle (setStyle s id).1 id).1 = (setStyle s id).1 ∧
    (setColorScheme (setColorScheme s id).1 id).1 = (setColorScheme s id).1 ∧
    (setBackground (setBackground s id).1 id).1 =
      (setBackground s id).1 := by
  refine ⟨?_, ⟨rfl, rfl⟩, ?_, rfl, rfl, ?_⟩
  · intro h
    simp only [List.mem_cons, List.not_mem_nil, or_false, not_or] at h
    obtain ⟨h1, h2, h3, h4⟩ := h
    simp [buildColorStyle, h1, h2, h3, h4]
  · intro h
    unfold setBackground
    rw [h]
    exact ⟨rfl, rfl⟩
  · unfold setBackground
    cases getBackgroundById id <;> rfl

/-- Witness for C8 amended at the unknown id "bogus". -/
theorem setters_unknown_id_amended_witness :
    buildColorStyle "bogus" = "Jmol" ∧
    (setBackground initState "bogus").1 =
      { initState with currentBackground := "bogus" } ∧
    (setBackground initState "bogus").2 = [] :=
  ⟨(setters_unknown_id_amended initState "bogus").1 (by decide),
   ((setters_unknown_id_amended initState "bogus").2.2.1 rfl).1,
   ((setters_unknown_id_amended initState "bogus").2.2.1 rfl).2⟩

/-- Every call produced by `finalizeLoad` is a style, camera, click-handler
or label call, never a download. -/
theorem finalizeLoad_no_download (t : ViewerState) (pid : String) :
    ∀ c ∈ (finalizeLoad t pid).2, c.isDownload = false := by
  intro c hc
  simp only [finalizeLoad, applyVisualizationSettings, List.mem_append,
    List.mem_cons, List.not_mem_nil, or_false] at hc
  rcases hc with ((rfl | rfl) | rfl | rfl | rfl | rfl) | h
  · rfl
  · rfl
  · rfl
  · rfl
  · rfl
  · rfl
  · revert h
    split <;> intro h
    · exact addLabelsCalls_no_download _ c h
    · cases h

/-- Every call produced by `loadInlineMolecule` is the addModel hand-over or
a finalization call, never a download. -/
theorem loadInlineMolecule_no_download (t : ViewerState)
    (pdbData pid : String) (atoms : List AtomInfo) :
    ∀ c ∈ (loadInlineMolecule t pdbData pid atoms).2,
      c.isDownload = false := by
  intro c hc
  simp only [loadInlineMolecule, List.mem_cons] at hc
  rcases hc with rfl | hc
  · rfl
  · exact finalizeLoad_no_download _ _ c hc

/-- C9: loading the ethanol preset takes the inline-data path: the inline PDB
text is handed to the surface, no remote download request is issued, and the
reported atom count is exactly 9, the number of ATOM records of the inline
ethanol structure. -/
theorem loadMolecule_ethanol_inline (s : ViewerState)
    (atoms : List AtomInfo) :
    (∀ c ∈ (loadMolecule s "ethanol" atoms).2, c.isDownload = false) ∧
    RenderCall.addModel ETHANOL_PDB "pdb" ∈
      (loadMolecule s "ethanol" atoms).2 ∧
    (loadMolecule s "ethanol" atoms).1.atomCount = 9 ∧
    countAtomRecords ETHANOL_PDB = 9 := by
  have hmol : getMoleculeById "ethanol" =
      some { id := "ethanol", name := "Ethanol", pdbId := "INLINE",
             formula := "C₂H₆O", weight := 4607/100,
             description := "Alcohol found in beverages" } := by
    rfl
  have hload : loadMolecule s "ethanol" atoms =
      (let s1 := { s with isLoading := true, currentMolecule := "ethanol",
                          customPdbId := none, searchError := none,
                          selectedAtom := none, viewerAtoms := [] }
       let c := clearMeasurement s1
       let r := loadInlineMolecule c.1 ETHANOL_PDB "INLINE" atoms
       (r.1, [RenderCall.clear, RenderCall.removeAllLabels,
              RenderCall.removeAllShapes] ++ c.2 ++ r.2)) := by
    rw [loadMolecule, hmol]
    rfl
  rw [hload]
  refine ⟨?_, ?_, ?_, by decide⟩
  · intro c hc
    simp only [clearMeasurement, List.mem_append, List.mem_cons,
      List.not_mem_nil, or_false] at hc
    rcases hc with ((rfl | rfl | rfl) | rfl | rfl) | hc
    · rfl
    · rfl
    · rfl
    · rfl
    · rfl
    · exact loadInlineMolecule_no_download _ _ _ _ c hc
  · simp only [clearMeasurement, loadInlineMolecule, List.mem_append,
      List.mem_cons]
    tauto
  · rfl

/-- A predicate preserved by every step holds after any event sequence. -/
theorem run_preserves (P : ViewerState → Prop)
    (hstep : ∀ s e, P s → P (stepState s e)) :
    ∀ (evs : List Event) (s : ViewerState), P s → P (run s evs) := by
  intro evs
  induction evs with
  | nil => intro s h; exact h
  | cons e rest ih => intro s h; exact ih _ (hstep s e h)

/-- The state component of toggleLabels: only the visibility flag flips. -/
theorem toggleLabels_fst (s : ViewerState) :
    (toggleLabels s).1 = { s with showLabels := !s.showLabels } := by
  unfold toggleLabels
  by_cases h : (!s.showLabels) = true <;> simp [h]

/-- The state component of setBackground: only the stored id changes. -/
theorem setBackground_fst (s : ViewerState) (bgId : String) :
    (setBackground s bgId).1 = { s with currentBackground := bgId } := by
  unfold setBackground
  cases getBackgroundById bgId <;> rfl

/-- The state component of resetView: only the spin flag may change. -/
theorem resetView_fst (s : ViewerState) :
    (resetView s).1 = { s with isSpinning := false } ∨
    (resetView s).1 = s := by
  unfold resetView toggleSpin
  by_cases h : s.isSpinning
  · left
    simp [h]
  · right
    simp [h]

/-- One step preserves the invariant that a pending first measurement atom
can only exist while measure mode is on. -/
theorem stepState_atom1_mode (s : ViewerState) (e : Event)
    (h : s.measureAtom1 ≠ none → s.measureMode = true) :
    (stepState s e).measureAtom1 ≠ none →
      (stepState s e).measureMode = true := by
  cases e with
  | toggleMeasureMode =>
      dsimp only [stepState, step, toggleMeasureMode]
      by_cases hm : s.measureMode <;> simp [hm]
  | clickAtom a =>
      dsimp only [stepState, step, onAtomClick]
      by_cases hm : s.measureMode = true
      · rw [if_pos hm]
        cases h1 : s.measureAtom1 with
        | none => simp [handleMeasurementClick, h1, hm]
        | some a1 => simp [handleMeasurementClick, h1]
      · rw [if_neg hm]
        exact h
  | clearMeasurement =>
      dsimp only [stepState, step, clearMeasurement]
      simp
  | loadMolecule id atoms =>
      dsimp only [stepState, step, loadMolecule]
      cases hgm : getMoleculeById id with
      | none => exact h
      | some m =>
          dsimp only
          split <;>
            simp [loadInlineMolecule, loadFromPDB, finalizeLoad,
              clearMeasurement]
  | searchPDB raw atoms =>
      dsimp only [stepState, step, searchPDB]
      split
      · exact h
      · split
        · exact h
        · split <;> simp [clearMeasurement]
  | toggleLabels =>
      rw [show stepState s Event.toggleLabels = (toggleLabels s).1 from rfl,
        toggleLabels_fst]
      exact h
  | setStyle id => exact h
  | setColorScheme id => exact h
  | setBackground id =>
      rw [show stepState s (Event.setBackground id) = (setBackground s id).1
        from rfl, setBackground_fst]
      exact h
  | toggleSpin => exact h
  | resetView =>
      rcases resetView_fst s with hr | hr <;>
        rw [show stepState s Event.resetView = (resetView s).1 from rfl, hr] <;>
        exact h
  | clearSearchError => exact h

/-- In every reachable state, a pending first measurement atom implies
measure mode is on. -/
theorem reachable_atom1_mode (s : ViewerState) (h : Reachable s) :
    s.measureAtom1 ≠ none → s.measureMode = true := by
  obtain ⟨evs, rfl⟩ := h
  exact run_preserves _ stepState_atom1_mode evs initState (by simp [initState])

/-- One step preserves the invariant that a custom PDB id excludes a preset
selection. -/
theorem stepState_custom_excludes_preset (s : ViewerState) (e : Event)
    (h : s.customPdbId ≠ none → s.currentMolecule = "") :
    (stepState s e).customPdbId ≠ none →
      (stepState s e).currentMolecule = "" := by
  cases e with
  | toggleMeasureMode => exact h
  | clickAtom a =>
      dsimp only [stepState, step, onAtomClick]
      by_cases hm : s.measureMode = true
      · rw [if_pos hm]
        cases h1 : s.measureAtom1 with
        | none => simp [handleMeasurementClick, h1]; exact h
        | some a1 => simp [handleMeasurementClick, h1]; exact h
      · rw [if_neg hm]
        exact h
  | clearMeasurement => exact h
  | loadMolecule id atoms =>
      dsimp only [stepState, step, loadMolecule]
      cases hgm : getMoleculeById id with
      | none => exact h
      | some m =>
          dsimp only
          split <;>
            simp [loadInlineMolecule, loadFromPDB, finalizeLoad,
              clearMeasurement]
  | searchPDB raw atoms =>
      dsimp only [stepState, step, searchPDB]
      split
      · exact h
      · split
        · exact h
        · split <;> simp [clearMeasurement]
  | toggleLabels =>
      rw [show stepState s Event.toggleLabels = (toggleLabels s).1 from rfl,
        toggleLabels_fst]
      exact h
  | setStyle id => exact h
  | setColorScheme id => exact h
  | setBackground id =>
      rw [show stepState s (Event.setBackground id) = (setBackground s id).1
        from rfl, setBackground_fst]
      exact h
  | toggleSpin => exact h
  | resetView =>
      rcases resetView_fst s with hr | hr <;>
        rw [show stepState s Event.resetView = (resetView s).1 from rfl, hr] <;>
        exact h
  | clearSearchError => exact h

/-- C1 counterexample: the claimed invariant "distance non-null implies first
point null" fails on a reachable state: completing a measurement, re-arming
and clicking a first atom leaves the stale distance beside the new first
point (the first-click branch of handleMeasurementClick never clears the
distance). -/
theorem measurement_invariant_counterexample :
    ¬ (∀ s : ViewerState, Reachable s →
        s.measurementDistance ≠ none → s.measureAtom1 = none) := by
  intro hclaim
  have hr : Reachable rearmedState := ⟨rearmEvents, rfl⟩
  have h1 : rearmedState.measurementDistance =
      some (calculateDistance atomA atomB) := rfl
  have h2 : rearmedState.measureAtom1 = some atomC := rfl
  have := hclaim rearmedState hr (by rw [h1]; exact Option.some_ne_none _)
  rw [h2] at this
  cases this

/-- C1 amended: in every reachable state, a non-null measurement distance
implies that the pending first point is null or measure mode is on; the
stale-distance state left by re-arming only occurs with measure mode on. -/
theorem measurement_distance_invariant_amended (s : ViewerState)
    (h : Reachable s) :
    s.measurementDistance ≠ none →
      s.measureAtom1 = none ∨ s.measureMode = true := by
  intro _
  by_cases h1 : s.measureAtom1 = none
  · exact Or.inl h1
  · exact Or.inr (reachable_atom1_mode s h h1)

/-- Witness for C1 amended at the re-armed state with its stale distance. -/
theorem measurement_distance_invariant_amended_witness :
    rearmedState.measurementDistance ≠ none ∧
    (rearmedState.measureAtom1 = none ∨ rearmedState.measureMode = true) :=
  ⟨by rw [show rearmedState.measurementDistance =
        some (calculateDistance atomA atomB) from rfl]
      exact Option.some_ne_none _,
   measurement_distance_invariant_amended rearmedState ⟨rearmEvents, rfl⟩
     (by rw [show rearmedState.measurementDistance =
           some (calculateDistance atomA atomB) from rfl]
         exact Option.some_ne_none _)⟩

/-- C10: in every reachable state, a non-null custom PDB id implies the
preset selection is the empty string: presets and custom identifiers are
mutually exclusive. -/
theorem customPdbId_excludes_preset (s : ViewerState) (h : Reachable s) :
    s.customPdbId ≠ none → s.currentMolecule = "" := by
  obtain ⟨evs, rfl⟩ := h
  exact run_preserves _ stepState_custom_excludes_preset evs initState
    (by simp [initState])

/-- Witness for C10 at the state produced by a successful custom search. -/
theorem customPdbId_excludes_preset_witness :
    searchedState.customPdbId = some "1CRN" ∧
    searchedState.currentMolecule = "" :=
  ⟨rfl,
   customPdbId_excludes_preset searchedState
     ⟨[Event.searchPDB "1crn" [atomA]], rfl⟩
     (by rw [show searchedState.customPdbId = some "1CRN" from rfl]
         exact Option.some_ne_none _)⟩

/-- C5: searchPDB trims and uppercases its input, rejects every input whose
cleaned form is not exactly 4 alphanumeric characters (returns false, sets a
user-visible error, issues no rendering-surface call and hence no remote
request), accepts "1crn" normalized to "1CRN", and rejects "abcde", "ab" and
"12-3". -/
theorem searchPDB_validation :
    (∀ (s : ViewerState) (raw : String) (atoms : List AtomInfo),
      validPdbId (cleanPdbId raw) = false →
        (searchPDB s raw atoms).2.2 = false ∧
        (searchPDB s raw atoms).1.searchError.isSome = true ∧
        (searchPDB s raw atoms).2.1 = []) ∧
    cleanPdbId "1crn" = "1CRN" ∧
    validPdbId "1CRN" = true ∧
    (searchPDB initState "1crn" [atomA]).2.2 = true ∧
    (searchPDB initState "1crn" [atomA]).1.customPdbId = some "1CRN" ∧
    validPdbId (cleanPdbId "abcde") = false ∧
    validPdbId (cleanPdbId "ab") = false ∧
    validPdbId (cleanPdbId "12-3") = false := by
  refine ⟨?_, by decide, by decide, rfl, rfl, by decide, by decide, by decide⟩
  intro s raw atoms hv
  unfold searchPDB
  by_cases he : (jsTrim raw == "") = true
  · rw [if_pos he]
    exact ⟨rfl, rfl, rfl⟩
  · rw [if_neg he]
    have hv' : (!validPdbId (cleanPdbId raw)) = true := by
      rw [hv]
      rfl
    rw [if_pos hv']
    exact ⟨rfl, rfl, rfl⟩

/-- Witness for C5 at the 5-character input "abcde". -/
theorem searchPDB_validation_witness :
    (searchPDB initState "abcde" []).2.2 = false ∧
    (searchPDB initState "abcde" []).1.searchError.isSome = true ∧
    (searchPDB initState "abcde" []).2.1 = [] :=
  searchPDB_validation.1 initState "abcde" [] (by decide)

/-- C6 counterexample: after loading the caffeine preset, a failed search for
the well-formed id "9xyz" (zero atoms delivered) surfaces the not-found error
and clears the loading flag, but the prior preset selection is not left
untouched: currentMolecule was already cleared to the empty string when the
search started and is never restored. -/
theorem searchPDB_notfound_counterexample :
    caffeineLoadedState.currentMolecule = "caffeine" ∧
    validPdbId (cleanPdbId "9xyz") = true ∧
    (searchPDB caffeineLoadedState "9xyz" []).2.2 = false ∧
    failedSearchState.searchError = some "PDB ID \"9XYZ\" not found" ∧
    failedSearchState.isLoading = false ∧
    failedSearchState.currentMolecule = "" ∧
    failedSearchState.currentMolecule ≠ caffeineLoadedState.currentMolecule := by
  refine ⟨rfl, by decide, rfl, rfl, rfl, rfl, ?_⟩
  rw [show failedSearchState.currentMolecule = "" from rfl,
    show caffeineLoadedState.currentMolecule = "caffeine" from rfl]
  decide

/-- C6 amended: for every well-formed 4-character id whose remote fetch
delivers zero atoms, searchPDB returns false, surfaces the not-found error,
clears the loading flag and resets the custom id, and leaves the style,
color-scheme, background and atom-count state untouched; however the preset
selection has already been cleared to the empty string and the prior
structure wiped from the surface, and neither is restored. -/
theorem searchPDB_notfound_amended (s : ViewerState) (raw : String)
    (hv : validPdbId (cleanPdbId raw) = true) :
    (searchPDB s raw []).2.2 = false ∧
    (searchPDB s raw []).1.searchError =
      some ("PDB ID \"" ++ cleanPdbId raw ++ "\" not found") ∧
    (searchPDB s raw []).1.isLoading = false ∧
    (searchPDB s raw []).1.customPdbId = none ∧
    (searchPDB s raw []).1.currentMolecule = "" ∧
    (searchPDB s raw []).1.viewerAtoms = [] ∧
    (searchPDB s raw []).1.atomCount = s.atomCount ∧
    (searchPDB s raw []).1.currentStyle = s.currentStyle ∧
    (searchPDB s raw []).1.currentColorScheme = s.currentColorScheme ∧
    (searchPDB s raw []).1.currentBackground = s.currentBackground := by
  by_cases he : (jsTrim raw == "") = true
  · exfalso
    have h0 : jsTrim raw = "" := by
      simpa using he
    have h1 : cleanPdbId raw = "" := by
      rw [cleanPdbId, h0]
      rfl
    rw [h1] at hv
    exact absurd hv (by decide)
  · unfold searchPDB
    rw [if_neg he]
    have hv' : (!validPdbId (cleanPdbId raw)) = false := by
      rw [hv]
      rfl
    rw [if_neg (by rw [hv']; exact Bool.false_ne_true)]
    rw [if_pos (show ((List.length ([] : List AtomInfo)) == 0) = true from rfl)]
    exact ⟨rfl, rfl, rfl, rfl, rfl, rfl, rfl, rfl, rfl, rfl⟩

/-- Witness for C6 amended at the caffeine-loaded state and the id "9xyz". -/
theorem searchPDB_notfound_amended_witness :
    (searchPDB caffeineLoadedState "9xyz" []).2.2 = false ∧
    (searchPDB caffeineLoadedState "9xyz" []).1.isLoading = false ∧
    (searchPDB caffeineLoadedState "9xyz" []).1.customPdbId = none ∧
    (searchPDB caffeineLoadedState "9xyz" []).1.atomCount =
      caffeineLoadedState.atomCount :=
  ⟨(searchPDB_notfound_amended caffeineLoadedState "9xyz" (by decide)).1,
   (searchPDB_notfound_amended caffeineLoadedState "9xyz" (by decide)).2.2.1,
   (searchPDB_notfound_amended caffeineLoadedState "9xyz" (by decide)).2.2.2.1,
   (searchPDB_notfound_amended caffeineLoadedState "9xyz"
     (by decide)).2.2.2.2.2.2.1⟩

end MolViz
